import Mathlib

/-!
Shallow embedding of the LPWAN-Tracker-Solution application core:
the event dispatcher `app_event_handler` / `lora_data_handler` and timer
callback `send_delayed` (app.cpp), and the GNSS polling function
`poll_gnss` (gnss.cpp).  Machine integers are modelled as `Nat`/`Int`
with explicit reductions modulo `2 ^ 32` / `2 ^ 8` where the C code can
overflow.
-/

namespace Tracker

/-- Payload block kinds that `app_event_handler` copies into
`packet_buff` in the `GNSS_FIN` branch (app.cpp lines 362-406):
the precise position record `g_tracker_data_l`, the short (Cayenne LPP)
position record `g_tracker_data_s`, the full environment record
`g_env_data`, or the first 4 bytes of `g_env_data` (the battery-only
record). -/
inductive Block where
  | posPrec
  | posShort
  | envFull
  | battOnly
  deriving DecidableEq, Repr

/-- The sequence of blocks the `GNSS_FIN` branch copies into
`packet_buff`, as a function of `g_gps_prec_6`, `has_env_sensor` and
`last_read_ok` (app.cpp lines 362-406). -/
def packet_blocks (prec6 has_env last_read_ok : Bool) : List Block :=
  if last_read_ok then
    if prec6 then
      if has_env then [Block.posPrec, Block.envFull]
      else [Block.posPrec, Block.battOnly]
    else
      if has_env then [Block.posShort, Block.envFull]
      else [Block.posShort, Block.battOnly]
  else
    if has_env then [Block.envFull] else [Block.battOnly]

/-- The value assigned to `packet_len` in the `GNSS_FIN` branch
(app.cpp lines 362-406).  The struct sizes `TRACKER_DATA_PREC_LEN`,
`TRACKER_DATA_SHORT_LEN` and `ENVIRONMENT_DATA_LEN` come from app.h and
are kept as parameters `precLen`, `shortLen`, `envLen`. -/
def packet_len (precLen shortLen envLen : Nat)
    (prec6 has_env last_read_ok : Bool) : Nat :=
  if last_read_ok then
    if prec6 then
      if has_env then precLen + envLen else precLen + 4
    else
      if has_env then shortLen + envLen else shortLen + 4
  else
    if has_env then envLen else 4

/-- One step of the battery-drain protection in the `STATUS` branch of
`app_event_handler` (app.cpp lines 250-266).  `batt` is the scaled
reading `read_batt() / 10`.  Returns the new `low_batt_protection`
flag, the new `g_task_wakeup_timer` period, and whether
`g_task_wakeup_timer.reset()` was called in this step. -/
def batt_guard_step (send_repeat_time : Nat) (prot : Bool) (period : Nat)
    (batt : Nat) : Bool × Nat × Bool :=
  if batt < 290 then
    (true, 1 * 60 * 60 * 1000, true)
  else if 410 < batt ∧ prot = true then
    (false, send_repeat_time, true)
  else
    (prot, period, false)

/-- Feeding a sequence of scaled battery readings to the battery guard,
one `STATUS` wake-up per reading. -/
def batt_guard_run (send_repeat_time : Nat) :
    List Nat → Bool × Nat → Bool × Nat
  | [], s => s
  | b :: l, (prot, period) =>
      let r := batt_guard_step send_repeat_time prot period b
      batt_guard_run send_repeat_time l (r.1, r.2.1)

/-- The value of `min_delay` set by `init_app` (app.cpp lines 148-157):
half of `send_repeat_time` when it is nonzero, otherwise 30000 ms. -/
def min_delay (send_repeat_time : Nat) : Nat :=
  if send_repeat_time ≠ 0 then send_repeat_time / 2 else 30000

/-- The `send_now` decision of the `ACC_TRIGGER` branch of
`app_event_handler` (app.cpp lines 312-332): initialised to `true`,
set to `false` when `send_repeat_time` is nonzero and less than
`min_delay` ms elapsed since `last_pos_send`. -/
def send_now_dec (send_repeat_time elapsed : Nat) : Bool :=
  if send_repeat_time ≠ 0 then
    if elapsed < min_delay send_repeat_time then false else true
  else true

/-- 32-bit unsigned subtraction, the arithmetic of
`millis() - last_pos_send` and of `min_delay - (millis() - last_pos_send)`
in the C code (`millis()` returns `uint32_t`). -/
def usub32 (a b : Nat) : Nat :=
  (a % 2 ^ 32 + (2 ^ 32 - b % 2 ^ 32)) % 2 ^ 32

/-- Reinterpretation of a 32-bit value as the signed `time_t` it is
stored into. -/
def toInt32 (n : Nat) : Int :=
  if n % 2 ^ 32 < 2 ^ 31 then (n % 2 ^ 32 : Int)
  else (n % 2 ^ 32 : Int) - 2 ^ 32

/-- The `wait_time` expression of app.cpp line 323:
`abs(min_delay - (millis() - last_pos_send) >= 0) ? (min_delay - (millis() - last_pos_send)) : min_delay`.
The comparison `>= 0` is on an unsigned value, so it always yields 1 and
`abs(1) = 1` selects the first branch; the subtraction itself is 32-bit
unsigned. -/
def wait_time (md elapsed : Nat) : Nat :=
  if (1 : Int).natAbs ≠ 0 then usub32 md elapsed else md

/-- State of the one-shot `delayed_sending` software timer, created
non-repeating by `init_app` (app.cpp line 160:
`delayed_sending.begin(min_delay, send_delayed, NULL, false)`). -/
structure TimerState where
  running : Bool
  period : Nat
  deriving DecidableEq, Repr

/-- The dispatcher state touched by the `ACC_TRIGGER` branch of
`app_event_handler` and by the `send_delayed` timer callback:
`delayed_active`, `last_pos_send`, the `STATUS` and `ACC_TRIGGER` bits
of `g_task_event_type`, the `delayed_sending` timer, and whether
`g_task_wakeup_timer.reset()` was called. -/
structure AccState where
  delayed_active : Bool
  last_pos_send : Nat
  status_flag : Bool
  acc_flag : Bool
  delayed_timer : TimerState
  wakeup_reset : Bool
  deriving DecidableEq, Repr

/-- The `ACC_TRIGGER` branch of `app_event_handler`
(app.cpp lines 304-347), entered only when the `ACC_TRIGGER` bit is set
and `g_lpwan_has_joined` holds; `now` is the value of `millis()`. -/
def acc_handler (send_repeat_time : Nat) (joined : Bool) (now : Nat)
    (s : AccState) : AccState :=
  if s.acc_flag = true ∧ joined = true then
    let s1 : AccState := { s with acc_flag := false }
    let elapsed : Nat := usub32 now s1.last_pos_send
    let md : Nat := min_delay send_repeat_time
    let s2 : AccState :=
      if send_repeat_time ≠ 0 ∧ elapsed < md then
        -- send_now = false: arm the deferred-send timer unless already armed
        if s1.delayed_active = false then
          { s1 with
            delayed_timer := { running := true, period := wait_time md elapsed },
            delayed_active := true }
        else s1
      else
        -- send_now = true: record last send time and raise STATUS
        { s1 with last_pos_send := now, status_flag := true }
    if send_repeat_time ≠ 0 then { s2 with wakeup_reset := true } else s2
  else s

/-- Firing of the `delayed_sending` timer: the callback `send_delayed`
(app.cpp lines 621-625) sets the `STATUS` bit and wakes the dispatcher;
the timer was created non-repeating, so it stops after firing. -/
def fire_delayed (s : AccState) : AccState :=
  if s.delayed_timer.running = true then
    { s with
      status_flag := true,
      delayed_timer := { s.delayed_timer with running := false } }
  else s

/-- State of the `LORA_TX_FIN` branch of `lora_data_handler`:
the `send_fail` counter (`uint8_t`) and whether
`sd_nvic_SystemReset()` has been invoked.  After a reset the device
reboots, so the state is frozen. -/
structure TxState where
  send_fail : Nat
  restart : Bool
  deriving DecidableEq, Repr

/-- One `LORA_TX_FIN` event (app.cpp lines 540-567): on a failed
acknowledgement (`g_rx_fin_result` false) increment `send_fail`
(8-bit); when it reaches 10, reset the device. -/
def tx_step (s : TxState) (ack : Bool) : TxState :=
  if s.restart = true then s
  else if ack = true then s
  else
    let sf := (s.send_fail + 1) % 2 ^ 8
    if sf = 10 then { send_fail := sf, restart := true }
    else { send_fail := sf, restart := false }

/-- A sequence of `LORA_TX_FIN` events from the initial state
(`send_fail = 0`, no restart). -/
def tx_run (l : List Bool) : TxState :=
  l.foldl tx_step ⟨0, false⟩

/-- Longest run of consecutive failed acknowledgements in an event
sequence (used to state the consecutive-failure reading of the claim). -/
def max_consec_fails : List Bool → Nat × Nat → Nat × Nat
  | [], p => p
  | a :: l, (cur, best) =>
      if a then max_consec_fails l (0, best)
      else max_consec_fails l (cur + 1, max best (cur + 1))

/-- Result of `send_lora_packet` (the `lmh_error_status` values the
handler inspects). -/
inductive LmhResult where
  | success
  | busy
  | error
  deriving DecidableEq, Repr

/-- AT-interface diagnostics emitted on the send path. -/
inductive AtEvent where
  | busyEvt
  | sizeErrorRetry
  | sizeError
  | drError
  deriving DecidableEq, Repr

/-- The LoRaWAN submission logic of the `GNSS_FIN` branch
(app.cpp lines 429-459), given the outcomes the radio would return on
the first, second and third call of `send_lora_packet`.  Returns how
many times `send_lora_packet` was called and the diagnostics printed.
The third call's outcome `r3` is never inspected: after it,
`+EVT:SIZE_ERROR` is printed unconditionally. -/
def send_attempts (r1 r2 r3 : LmhResult) : Nat × List AtEvent :=
  match r1 with
  | .success => (1, [])
  | .busy => (1, [.busyEvt])
  | .error =>
    match r2 with
    | .success => (2, [])
    | .busy => (2, [.busyEvt])
    | .error =>
      match r3 with
      | _ => (3, [.sizeErrorRetry, .sizeError])

/-- The full LoRaWAN send path of the `GNSS_FIN` branch including the
region/data-rate gate (app.cpp lines 417-459): when
`g_lorawan_settings.lora_region == 8` and
`g_lorawan_settings.data_rate == 0`, print `+EVT:DR_ERROR` and return
without calling `send_lora_packet`. -/
def gnss_fin_send (lora_region data_rate : Nat) (r1 r2 r3 : LmhResult) :
    Nat × List AtEvent :=
  if lora_region = 8 then
    if data_rate = 0 then (0, [.drError])
    else send_attempts r1 r2 r3
  else send_attempts r1 r2 r3

/-- The GNSS polling timeout `check_limit` computed by `poll_gnss`
(gnss.cpp lines 191-204). -/
def check_limit (send_repeat_time : Nat) : Nat :=
  if send_repeat_time = 0 then 90000
  else if send_repeat_time ≤ 90000 then send_repeat_time / 2
  else 90000

/-- Modelled from the spec: the claim's formula for the polling timeout,
`min(configured_repeat_interval / 2, 90 s)` when a repeat interval is
configured (nonzero) and is at most 180 s, else the fixed 90 s ceiling.
Stated only to compare with `check_limit`, which is the code's value. -/
def spec_check_limit (send_repeat_time : Nat) : Nat :=
  if send_repeat_time ≠ 0 ∧ send_repeat_time ≤ 180000 then
    min (send_repeat_time / 2) 90000
  else 90000

/-- The validity outcome of `poll_gnss` (gnss.cpp lines 308-314):
`driver_ok` is the `last_read_ok` flag as set by the acquisition loop
(the driver's validity/success indication); a fix whose latitude and
longitude are both zero is rejected afterwards regardless. -/
def poll_result (driver_ok : Bool) (latitude longitude : Int) : Bool :=
  if driver_ok = true then
    if latitude = 0 ∧ longitude = 0 then false else true
  else false

/-! ## Theorems -/

/-- C1, counterexample.  With an invalid fix and no environment sensor
the code sets `packet_len = 4` and copies only the 4-byte battery
record: the frame does not include zeroed position fields, and its
length is not position-block length + 4 (instantiated here with
position-block length 13). -/
theorem c1_invalid_no_env_counterexample :
    packet_len 13 11 18 true false false = 4 ∧
    packet_len 13 11 18 true false false ≠ 13 + 4 ∧
    packet_blocks true false false = [Block.battOnly] := by
  decide

/-- C1, amended.  For every fix-completed event with an invalid fix
(`last_read_ok = false`): when an environment sensor is present, the
frame contains only the full environment block (length `envLen`); when
no environment sensor is present, the position fields are likewise
omitted and the frame is only the 4-byte battery block (length 4). -/
theorem c1_invalid_fix_frame (precLen shortLen envLen : Nat)
    (prec6 has_env : Bool) :
    packet_blocks prec6 has_env false =
      (if has_env = true then [Block.envFull] else [Block.battOnly]) ∧
    packet_len precLen shortLen envLen prec6 has_env false =
      (if has_env = true then envLen else 4) := by
  cases has_env <;> simp [packet_blocks, packet_len]

/-- C2.  The low-battery-protection flag obeys two-threshold
hysteresis: it becomes active only on a scaled reading strictly below
290; while protected it stays active for any reading in [290, 410]
(and, over a whole sequence of such readings, remains active); it
becomes inactive only on a reading strictly above 410 while protected.
On entry the wake interval is set to one hour (3600000 ms) and the
timer phase is reset; on exit it is restored to the configured repeat
interval and the phase is reset. -/
theorem c2_battery_guard_hysteresis (rt : Nat) :
    (∀ prot period batt,
      ((batt_guard_step rt prot period batt).1 = true ∧ prot = false →
        batt < 290) ∧
      (prot = true ∧ 290 ≤ batt ∧ batt ≤ 410 →
        (batt_guard_step rt prot period batt).1 = true) ∧
      (prot = true ∧ (batt_guard_step rt prot period batt).1 = false →
        410 < batt) ∧
      (prot = false ∧ (batt_guard_step rt prot period batt).1 = true →
        (batt_guard_step rt prot period batt).2.1 = 3600000 ∧
        (batt_guard_step rt prot period batt).2.2 = true) ∧
      (prot = true ∧ (batt_guard_step rt prot period batt).1 = false →
        (batt_guard_step rt prot period batt).2.1 = rt ∧
        (batt_guard_step rt prot period batt).2.2 = true)) ∧
    (∀ l period, (∀ b ∈ l, 290 ≤ b ∧ b ≤ 410) →
      (batt_guard_run rt l (true, period)).1 = true) := by
  constructor
  · intro prot period batt
    cases prot <;> unfold batt_guard_step <;> split_ifs with h1 h2 <;>
      refine ⟨?_, ?_, ?_, ?_, ?_⟩ <;> simp_all
  · intro l
    induction l with
    | nil => intro period h; rfl
    | cons b l ih =>
      intro period h
      have hb := h b (List.mem_cons_self b l)
      have hstep : batt_guard_step rt true period b = (true, period, false) := by
        unfold batt_guard_step
        split_ifs with h1 h2
        · omega
        · omega
        · rfl
      show (batt_guard_run rt l _).1 = true
      rw [hstep]
      exact ih period (fun x hx => h x (List.mem_cons_of_mem b hx))

/-- C2, witness: from an unprotected state, a reading of 280 activates
protection, sets the interval to one hour and resets the phase. -/
theorem c2_battery_guard_hysteresis_witness :
    (batt_guard_step 60000 false 60000 280).2.1 = 3600000 ∧
    (batt_guard_step 60000 false 60000 280).2.2 = true :=
  ((c2_battery_guard_hysteresis 60000).1 false 60000 280).2.2.2.1
    ⟨by decide, rfl⟩

/-- C8.  An acquisition result with latitude = longitude = 0 is treated
as an invalid fix regardless of the driver's validity indication, so
the built payload always has the invalid-fix shape (environment block
only, or battery-only block). -/
theorem c8_zero_fix_guard (driver_ok prec6 has_env : Bool) :
    poll_result driver_ok 0 0 = false ∧
    packet_blocks prec6 has_env (poll_result driver_ok 0 0) =
      (if has_env = true then [Block.envFull] else [Block.battOnly]) := by
  cases driver_ok <;> cases prec6 <;> cases has_env <;>
    simp [poll_result, packet_blocks]

/-- C3.  The immediate-send decision of the motion-trigger handler is
true iff the configured repeat interval is 0 or at least `min_delay`
milliseconds have elapsed since the last send, where `min_delay` is
half the repeat interval (30000 ms fallback at repeat interval 0);
when the decision is false, the computed wait, stored into a signed
`time_t`, equals `min_delay - elapsed` and is nonnegative. -/
theorem c3_send_governor_decision (rt elapsed : Nat)
    (h1 : elapsed < 2 ^ 32) (h2 : min_delay rt < 2 ^ 31) :
    (send_now_dec rt elapsed = true ↔ (rt = 0 ∨ min_delay rt ≤ elapsed)) ∧
    (send_now_dec rt elapsed = false →
      toInt32 (wait_time (min_delay rt) elapsed) =
        (min_delay rt : Int) - (elapsed : Int) ∧
      0 ≤ toInt32 (wait_time (min_delay rt) elapsed)) := by
  have hiff : send_now_dec rt elapsed = true ↔
      (rt = 0 ∨ min_delay rt ≤ elapsed) := by
    unfold send_now_dec
    split_ifs with ha hb <;> simp_all
  refine ⟨hiff, fun hfalse => ?_⟩
  have hlt : elapsed < min_delay rt := by
    rcases Nat.lt_or_ge elapsed (min_delay rt) with h | h
    · exact h
    · exfalso
      have : send_now_dec rt elapsed = true := hiff.mpr (Or.inr h)
      simp [this] at hfalse
  have hval : wait_time (min_delay rt) elapsed = min_delay rt - elapsed := by
    unfold wait_time usub32
    have hm : min_delay rt % 2 ^ 32 = min_delay rt := Nat.mod_eq_of_lt (by omega)
    have he : elapsed % 2 ^ 32 = elapsed := Nat.mod_eq_of_lt h1
    rw [if_pos (by norm_num), hm, he]
    omega
  rw [hval]
  unfold toInt32
  have hlt2 : min_delay rt - elapsed < 2 ^ 31 := by omega
  rw [Nat.mod_eq_of_lt (by omega)]
  rw [if_pos (by omega)]
  constructor
  · push_cast
    omega
  · omega

/-- C3, witness: repeat interval 60000 ms, 1000 ms elapsed: the
decision is false and the stored wait is 29000 ≥ 0. -/
theorem c3_send_governor_decision_witness :
    (send_now_dec 60000 1000 = true ↔ (60000 = 0 ∨ min_delay 60000 ≤ 1000)) ∧
    (send_now_dec 60000 1000 = false →
      toInt32 (wait_time (min_delay 60000) 1000) =
        (min_delay 60000 : Int) - (1000 : Int) ∧
      0 ≤ toInt32 (wait_time (min_delay 60000) 1000)) :=
  c3_send_governor_decision 60000 1000 (by norm_num) (by norm_num [min_delay])

/-- C4.  While `delayed_active` is set, a further motion-trigger event
leaves the `delayed_sending` timer unchanged (not stopped, re-armed or
re-periodized); and firing the armed one-shot timer raises the STATUS
send request and disarms the timer, so a second firing without
re-arming changes nothing. -/
theorem c4_deferred_idempotent_oneshot :
    (∀ rt joined now s, s.delayed_active = true →
      (acc_handler rt joined now s).delayed_timer = s.delayed_timer) ∧
    (∀ s, s.delayed_timer.running = true →
      (fire_delayed s).status_flag = true ∧
      (fire_delayed s).delayed_timer.running = false ∧
      fire_delayed (fire_delayed s) = fire_delayed s) := by
  constructor
  · intro rt joined now s hact
    unfold acc_handler
    split_ifs <;> simp_all
    split <;> rfl
  · intro s hrun
    unfold fire_delayed
    rw [if_pos hrun]
    refine ⟨rfl, rfl, ?_⟩
    rw [if_neg (by simp)]

/-- C4, witness: a concrete state with an armed deferred timer: a
motion event at t = 1000 leaves the timer untouched, and firing raises
STATUS once. -/
theorem c4_deferred_idempotent_oneshot_witness :
    (acc_handler 60000 true 1000
        { delayed_active := true, last_pos_send := 0, status_flag := false,
          acc_flag := true, delayed_timer := { running := true, period := 29000 },
          wakeup_reset := false }).delayed_timer =
      ({ delayed_active := true, last_pos_send := 0, status_flag := false,
         acc_flag := true, delayed_timer := { running := true, period := 29000 },
         wakeup_reset := false } : AccState).delayed_timer ∧
    (fire_delayed
        { delayed_active := true, last_pos_send := 0, status_flag := false,
          acc_flag := true, delayed_timer := { running := true, period := 29000 },
          wakeup_reset := false }).status_flag = true :=
  ⟨c4_deferred_idempotent_oneshot.1 60000 true 1000 _ rfl,
   (c4_deferred_idempotent_oneshot.2 _ rfl).1⟩

/-- C10.  When the motion-trigger flag is set but the network has not
joined, the motion branch of the event handler does nothing: the state
is unchanged, in particular the flag is not cleared and no STATUS send
request is raised. -/
theorem c10_no_motion_before_join (rt now : Nat) (s : AccState)
    (h : s.acc_flag = true) :
    acc_handler rt false now s = s ∧
    (acc_handler rt false now s).acc_flag = true := by
  have heq : acc_handler rt false now s = s := by
    unfold acc_handler
    rw [if_neg (by simp)]
  exact ⟨heq, by rw [heq]; exact h⟩

/-- C10, witness: a concrete pre-join state with the motion flag set is
left untouched. -/
theorem c10_no_motion_before_join_witness :
    acc_handler 60000 false 5000
        { delayed_active := false, last_pos_send := 0, status_flag := false,
          acc_flag := true, delayed_timer := { running := false, period := 30000 },
          wakeup_reset := false } =
      { delayed_active := false, last_pos_send := 0, status_flag := false,
        acc_flag := true, delayed_timer := { running := false, period := 30000 },
        wakeup_reset := false } ∧
    (acc_handler 60000 false 5000
        { delayed_active := false, last_pos_send := 0, status_flag := false,
          acc_flag := true, delayed_timer := { running := false, period := 30000 },
          wakeup_reset := false }).acc_flag = true :=
  c10_no_motion_before_join 60000 5000 _ rfl

/-- Once the reset has fired, further `LORA_TX_FIN` events change
nothing (the device is rebooting). -/
theorem tx_frozen (l : List Bool) (n : Nat) :
    l.foldl tx_step ⟨n, true⟩ = ⟨n, true⟩ := by
  induction l with
  | nil => rfl
  | cons a l ih =>
    show l.foldl tx_step (tx_step ⟨n, true⟩ a) = _
    have hstep : tx_step ⟨n, true⟩ a = ⟨n, true⟩ := by
      unfold tx_step
      simp
    rw [hstep]
    exact ih

/-- Invariant of the `send_fail` counter: starting below the threshold,
after any event sequence the state is the cumulative failed-ack count
while it stays below 10, and the frozen restart state otherwise. -/
theorem tx_invariant (l : List Bool) : ∀ c, c < 10 →
    l.foldl tx_step ⟨c, false⟩ =
      if c + l.count false < 10 then ⟨c + l.count false, false⟩
      else ⟨10, true⟩ := by
  induction l with
  | nil =>
    intro c hc
    simp only [List.foldl_nil, List.count_nil, Nat.add_zero]
    rw [if_pos hc]
  | cons a l ih =>
    intro c hc
    cases a with
    | true =>
      have hstep : tx_step ⟨c, false⟩ true = ⟨c, false⟩ := by
        unfold tx_step
        simp
      show l.foldl tx_step (tx_step ⟨c, false⟩ true) = _
      rw [hstep, ih c hc]
      simp [List.count_cons]
    | false =>
      have hm : (c + 1) % 256 = c + 1 := Nat.mod_eq_of_lt (by omega)
      have hstep : tx_step ⟨c, false⟩ false =
          if c + 1 = 10 then ⟨c + 1, true⟩ else ⟨c + 1, false⟩ := by
        simp [tx_step, hm]
      have hcount : (false :: l).count false = l.count false + 1 := by
        simp [List.count_cons]
      show l.foldl tx_step (tx_step ⟨c, false⟩ false) = _
      by_cases h9 : c + 1 = 10
      · rw [hstep, if_pos h9, h9, tx_frozen, hcount, if_neg (by omega)]
      · rw [hstep, if_neg h9, ih (c + 1) (by omega), hcount]
        have harith : c + 1 + l.count false = c + (l.count false + 1) := by
          omega
        rw [harith]

/-- C5, amended.  Over every sequence of `LORA_TX_FIN` events, the
restart fires exactly when the cumulative count of failed
acknowledgements reaches 10 — never before, and independently of
whether the failures are consecutive: the counter is not cleared by a
successful acknowledgement.  The counter itself equals the cumulative
failure count, capped at 10. -/
theorem c5_tx_restart_at_ten_cumulative (l : List Bool) :
    ((tx_run l).restart = true ↔ 10 ≤ l.count false) ∧
    (tx_run l).send_fail = min (l.count false) 10 := by
  have h := tx_invariant l 0 (by norm_num)
  unfold tx_run
  rw [h]
  simp only [Nat.zero_add]
  split_ifs with hlt <;> constructor <;> simp <;> omega

/-- C5, witness: ten consecutive failed acknowledgements trigger the
restart. -/
theorem c5_tx_restart_at_ten_cumulative_witness :
    ((tx_run (List.replicate 10 false)).restart = true ↔
      10 ≤ (List.replicate 10 false).count false) ∧
    (tx_run (List.replicate 10 false)).send_fail =
      min ((List.replicate 10 false).count false) 10 :=
  c5_tx_restart_at_ten_cumulative (List.replicate 10 false)

/-- C5, counterexample.  The sequence of 11 tx-completed events
fail×5, success, fail×5 triggers the restart (cumulative failures
reach 10) although its longest run of consecutive failures is 5 < 10,
refuting "fewer than 10 consecutive failures never do". -/
theorem c5_consecutive_counterexample :
    (tx_run [false, false, false, false, false, true,
             false, false, false, false, false]).restart = true ∧
    (max_consec_fails [false, false, false, false, false, true,
             false, false, false, false, false] (0, 0)).2 = 5 := by
  decide

/-- C6, counterexample.  A busy outcome on the first submission is not
retried: the handler prints `+EVT:BUSY` and makes no second call to
`send_lora_packet`, refuting "a transient busy outcome from the radio
is retried immediately". -/
theorem c6_busy_not_retried_counterexample :
    send_attempts LmhResult.busy LmhResult.success LmhResult.success =
      (1, [AtEvent.busyEvt]) ∧
    ¬2 ≤ (send_attempts LmhResult.busy LmhResult.success
      LmhResult.success).1 := by
  decide

/-- C6, amended.  In the LoRaWAN send path of the fix-completed
handler, it is the error (too-large) outcome that is retried
immediately; a busy outcome ends the path after one attempt with
`+EVT:BUSY`.  At most 3 submission attempts are made, and after two
error outcomes the third attempt is made and `+EVT:SIZE_ERROR` is
emitted regardless of the third attempt's actual outcome (its
successful-outcome path is discarded). -/
theorem c6_send_retry_policy (r1 r2 r3 : LmhResult) :
    (send_attempts r1 r2 r3).1 ≤ 3 ∧
    (r1 = LmhResult.busy →
      send_attempts r1 r2 r3 = (1, [AtEvent.busyEvt])) ∧
    (r1 = LmhResult.error → 2 ≤ (send_attempts r1 r2 r3).1) ∧
    (r1 = LmhResult.error → r2 = LmhResult.error →
      send_attempts r1 r2 r3 =
        (3, [AtEvent.sizeErrorRetry, AtEvent.sizeError])) := by
  cases r1 <;> cases r2 <;> cases r3 <;> decide

/-- C6, witness: two error outcomes followed by a would-be success on
the third attempt still end in `+EVT:SIZE_ERROR` after 3 attempts. -/
theorem c6_send_retry_policy_witness :
    send_attempts LmhResult.error LmhResult.error LmhResult.success =
      (3, [AtEvent.sizeErrorRetry, AtEvent.sizeError]) :=
  (c6_send_retry_policy LmhResult.error LmhResult.error
    LmhResult.success).2.2.2 rfl rfl

/-- C7, counterexample.  At a configured repeat interval of 120000 ms
(nonzero and at most 180 s), the code's polling timeout is the 90 s
ceiling, not `min(120000 / 2, 90000) = 60000` as the claim's formula
requires. -/
theorem c7_checklimit_counterexample :
    check_limit 120000 = 90000 ∧ spec_check_limit 120000 = 60000 ∧
    check_limit 120000 ≠ spec_check_limit 120000 := by
  decide

/-- C7, amended.  The polling timeout equals
`min(configured_repeat_interval / 2, 90 s)` whenever a repeat interval
is configured (nonzero) and is at most 90 s, and equals the fixed 90 s
ceiling otherwise (repeat interval 0 or greater than 90 s). -/
theorem c7_check_limit_formula (rt : Nat) :
    (0 < rt → rt ≤ 90000 → check_limit rt = min (rt / 2) 90000) ∧
    (rt = 0 ∨ 90000 < rt → check_limit rt = 90000) := by
  unfold check_limit
  constructor
  · intro h0 h90
    rw [if_neg (by omega), if_pos h90]
    omega
  · rintro (h | h)
    · rw [if_pos h]
    · rw [if_neg (by omega), if_neg (by omega)]

/-- C7, witness: at a 60 s repeat interval the timeout is
`min(30000, 90000)`. -/
theorem c7_check_limit_formula_witness :
    check_limit 60000 = min (60000 / 2) 90000 :=
  (c7_check_limit_formula 60000).1 (by norm_num) (by norm_num)

/-- C9.  In LoRaWAN mode, when the configured region is the one
requiring extra airtime headroom (`lora_region = 8`) and the data rate
is the most restrictive one (`data_rate = 0`), the frame is rejected
locally with `+EVT:DR_ERROR` and `send_lora_packet` is called 0 times
— the frame is never passed to the radio, whatever outcomes the radio
would have returned. -/
theorem c9_dr_error_rejected (region dr : Nat) (r1 r2 r3 : LmhResult)
    (h8 : region = 8) (h0 : dr = 0) :
    gnss_fin_send region dr r1 r2 r3 = (0, [AtEvent.drError]) := by
  subst h8
  subst h0
  rfl

/-- C9, witness: region 8 at data rate 0 rejects the frame before
submission. -/
theorem c9_dr_error_rejected_witness :
    gnss_fin_send 8 0 LmhResult.success LmhResult.success
      LmhResult.success = (0, [AtEvent.drError]) :=
  c9_dr_error_rejected 8 0 LmhResult.success LmhResult.success
    LmhResult.success rfl rfl

end Tracker
